import Mathlib

/-!
Shallow embedding of the resume-parsing web service (`app.py` and
`utility/ResumeParser.py`).

Modelling conventions:
- FastAPI `HTTPException(status_code, detail)` becomes `HTTPError`; an exception
  that escapes every handler-local `try` block (and is therefore converted by the
  registered catch-all exception handler into a generic 500 response) becomes
  `Failure.unhandled`.
- A Mongo `ObjectId` value is a natural number below `16 ^ 24`; its string form is
  the 24-character lowercase-hex encoding and `ObjectId(s)` on a string succeeds
  exactly on 24-character hex strings (`parseObjectId`).
- A PDF upload is a `PdfContent`: either structurally invalid (the `PdfReader`
  constructor raises) or a list of pages, where each page's `extract_text()` call
  returns a string, returns `None` (the code appends `""` via `or ""`), or raises
  (the code logs a warning and continues).
- The spaCy pipeline behind `ResumeParser` is opaque: a `NerModel` is any function
  from the input text to an ordered list of `(span text, label)` pairs
  (`doc.ents` with `ent.text` and `ent.label_`). Construction of `ResumeParser`
  can fail before the model runs: the `os.path.exists` check raises
  `FileNotFoundError`, or `spacy.load` raises; both escape `parse_resume_text`
  uncaught because `parser = ResumeParser()` sits outside its `try` block.
- The Mongo collection is an association list from id to stored document plus a
  fresh-id counter; transport failure (`dbReachable = false`) makes every
  collection call raise, which each endpoint's `except` clause converts to a 500.
-/

/-- HTTP error carrying a status code and a human-readable detail string,
mirroring FastAPI's `HTTPException`. -/
structure HTTPError where
  status : Nat
  detail : String
deriving DecidableEq, Repr

/-- A request failure: either a deliberately raised `HTTPException`, or an
exception that escapes the endpoint and reaches the catch-all
`general_exception_handler`. -/
inductive Failure where
  | http (e : HTTPError)
  | unhandled (msg : String)
deriving DecidableEq, Repr

/-- Result of one request-handling computation. -/
abbrev Result (α : Type) := Except Failure α

/-- The HTTP status the client observes for a failure: the `HTTPException`'s own
status, or 500 from `general_exception_handler` for an unhandled exception. -/
def clientStatus : Failure → Nat
  | .http e => e.status
  | .unhandled _ => 500

/-- The detail string the client observes for a failure: the `HTTPException`'s
detail, or the generic "Internal server error" from `general_exception_handler`. -/
def clientDetail : Failure → String
  | .http e => e.detail
  | .unhandled _ => "Internal server error"

/-- Lowercase hex digit character for a value below 16 (digits `0`-`9` then
`a`-`f`), as produced by `str(ObjectId)`. -/
def hexDigitChar (d : Nat) : Char :=
  if d < 10 then Char.ofNat (48 + d) else Char.ofNat (87 + d)

/-- Numeric value of a hex digit character (either case). -/
def hexVal (c : Char) : Nat :=
  if c.toNat ≤ 57 then c.toNat - 48
  else if c.toNat ≤ 70 then c.toNat - 55
  else c.toNat - 87

/-- Whether a character is a hexadecimal digit (`0`-`9`, `a`-`f`, `A`-`F`),
the per-character test bson applies to a candidate `ObjectId` string. -/
def isHexDigitChar (c : Char) : Bool :=
  (48 ≤ c.toNat && c.toNat ≤ 57) || (97 ≤ c.toNat && c.toNat ≤ 102) ||
    (65 ≤ c.toNat && c.toNat ≤ 70)

/-- Big-endian hex digits of `n`, padded/truncated to exactly `k` characters. -/
def natToHexDigits : Nat → Nat → List Char
  | _, 0 => []
  | n, k + 1 => natToHexDigits (n / 16) k ++ [hexDigitChar (n % 16)]

/-- String form of an `ObjectId` value: `str(oid)`, a 24-character lowercase
hex string. -/
def natToHex24 (n : Nat) : String :=
  String.mk (natToHexDigits n 24)

/-- Numeric value of a list of hex digit characters, big-endian. -/
def hexListToNat (l : List Char) : Nat :=
  l.foldl (fun a c => 16 * a + hexVal c) 0

/-- Whether a string is syntactically a valid `ObjectId`: exactly 24 hex
characters, the validity rule bson's `ObjectId(str)` enforces. -/
def isValidObjectIdString (s : String) : Bool :=
  s.data.length == 24 && s.data.all isHexDigitChar

/-- `ObjectId(s)` on a string: succeeds with the encoded value exactly when `s`
is a 24-character hex string, otherwise raises `InvalidId` (modelled as `none`). -/
def parseObjectId (s : String) : Option Nat :=
  if isValidObjectIdString s then some (hexListToNat s.data) else none

/-- Whitespace for Python's `str.strip()` (ASCII whitespace classes). -/
def isPySpace (c : Char) : Bool :=
  c == ' ' || c == '\t' || c == '\n' || c == '\x0d' || c == '\x0b' || c == '\x0c'

/-- Python's `s.strip()`: remove leading and trailing whitespace. -/
def pyStrip (s : String) : String :=
  String.mk (((s.data.dropWhile isPySpace).reverse.dropWhile isPySpace).reverse)

/-- Outcome of `page.extract_text()` on one PDF page: a string, `None` (the
caller appends `""` because of `or ""`), or an exception (the caller logs a
warning and continues with the next page). -/
inductive PageExtract where
  | ok (text : String)
  | noText
  | failed (msg : String)
deriving DecidableEq, Repr

/-- The string this page contributes to the running `text` accumulator in
`extract_text_from_pdf`'s page loop. -/
def PageExtract.contribution : PageExtract → String
  | .ok t => t
  | .noText => ""
  | .failed _ => ""

/-- Content of an uploaded file as seen through `PdfReader`: the constructor
raises (structurally invalid PDF), or yields a list of pages. -/
inductive PdfContent where
  | invalid (err : String)
  | valid (pages : List PageExtract)
deriving DecidableEq, Repr

/-- An uploaded file: `UploadFile` with its declared size (absent on some
transports), declared content type, filename, and PDF content. -/
structure UploadFile where
  filename : String
  size : Option Nat
  contentType : String
  content : PdfContent
deriving DecidableEq, Repr

/-- Default `MAX_FILE_SIZE`: 10 MiB. -/
def MAX_FILE_SIZE : Nat := 10 * 1024 * 1024

/-- `validate_file_size`: raises 413 when the file has a declared, truthy
(non-zero) size exceeding the configured maximum; otherwise passes. -/
def validate_file_size (maxFileSize : Nat) (file : UploadFile) : Result Unit :=
  match file.size with
  | none => .ok ()
  | some s =>
      if 0 < s ∧ maxFileSize < s then
        .error (.http ⟨413, "File size (" ++ toString s ++
          " bytes) exceeds maximum allowed size (" ++ toString maxFileSize ++ " bytes)"⟩)
      else .ok ()

/-- `validate_file_type`: raises 400 unless the declared content type is
exactly `application/pdf`. -/
def validate_file_type (file : UploadFile) : Result Unit :=
  if file.contentType = "application/pdf" then .ok ()
  else .error (.http ⟨400, "Only PDF files are accepted"⟩)

/-- `validate_user_id`: converts the string to an `ObjectId`, raising 400 when
the format is invalid. -/
def validate_user_id (userId : String) : Result Nat :=
  match parseObjectId userId with
  | some oid => .ok oid
  | none => .error (.http ⟨400, "Invalid userId format. Must be a valid ObjectId"⟩)

/-- `extract_text_from_pdf`: 400 on an unreadable PDF, 400 `"PDF file has no
pages"` on an empty page list, otherwise the page loop's accumulated text
(each failing page skipped, `None` treated as `""`), stripped. -/
def extract_text_from_pdf (file : UploadFile) : Result String :=
  match file.content with
  | .invalid err => .error (.http ⟨400, "Error reading PDF: " ++ err⟩)
  | .valid pages =>
      if pages.length = 0 then .error (.http ⟨400, "PDF file has no pages"⟩)
      else .ok (pyStrip (pages.foldl (fun acc p => acc ++ p.contribution) ""))

/-- The opaque NER backend: for an input text, `doc.ents` as an ordered list
of `(ent.text, ent.label_)` pairs. -/
structure NerModel where
  ents : String → List (String × String)

/-- State of the `ResumeParser` construction: the model directory is missing
(`FileNotFoundError` with the recorded path), `spacy.load` raises, or the
model loads. -/
inductive ModelState where
  | missing (path : String)
  | loadFailed (msg : String)
  | loaded (m : NerModel)

/-- Return value of `ResumeParser.parse_resume`: the input text verbatim plus
the `(span text, label)` entity pairs. -/
structure ParseResult where
  parsed_text : String
  entities : List (String × String)

/-- `ResumeParser.parse_resume`: runs the pipeline on `text` and returns the
text verbatim with the entity pairs. -/
def ResumeParser.parse_resume (m : NerModel) (text : String) : ParseResult :=
  ⟨text, m.ents text⟩

/-- `parse_resume_text`: 400 when the stripped text is empty; then constructs
`ResumeParser()` outside any `try`, so a construction failure escapes as an
unhandled exception; on success returns `parse_resume`'s result. The handler's
check that the result is a dict containing `"parsed_text"` can never fire
because `parse_resume` always returns such a dict. -/
def parse_resume_text (ms : ModelState) (text : String) : Result ParseResult :=
  if pyStrip text = "" then .error (.http ⟨400, "No text found in the PDF"⟩)
  else
    match ms with
    | .missing path =>
        .error (.unhandled ("Model not found at " ++ path ++ ". Check the path and try again."))
    | .loadFailed msg => .error (.unhandled msg)
    | .loaded m => .ok (ResumeParser.parse_resume m text)

/-- The entity projection in `upload_and_save`: `ent[0] if isinstance(ent,
(list, tuple)) else str(ent)` over the recognizer's entity list; every entity
is a `(text, label)` tuple here, so this keeps the first component. The
enclosing truthiness guard on `result["entities"]` only maps an empty list to
an empty list, which the map does as well. -/
def project_entities (ents : List (String × String)) : List String :=
  ents.map (fun ent => ent.1)

/-- A document in the `parsed_resumes` collection, as written by
`upload_and_save` (the `_id` key is stored alongside it in `Store.docs`). -/
structure StoredDoc where
  parsed_text : String
  entities : List String
  userId : Nat
  created_at : Option String
  file_name : String
  file_size : Option Nat
  content_type : String
deriving DecidableEq, Repr

/-- The Mongo collection: an association list from `_id` value to document,
plus the next id the driver will generate. -/
structure Store where
  docs : List (Nat × StoredDoc)
  nextId : Nat
deriving DecidableEq, Repr

/-- Process-wide state a request sees: the `ResumeParser` construction outcome,
the collection contents, whether the module globals `client` /
`parsed_collection` were initialised, whether the database transport currently
works, the message of a transport error, and the configured size ceiling. -/
structure AppState where
  modelState : ModelState
  store : Store
  collectionAvailable : Bool
  clientPresent : Bool
  dbReachable : Bool
  dbErrorMsg : String
  maxFileSize : Nat

/-- Response model `ParsedResumeOut`. -/
structure ParsedResumeOut where
  id : String
  parsed_text : String
  entities : List String
  userId : String
deriving DecidableEq, Repr

/-- Response model `HealthCheck`. -/
structure HealthCheck where
  status : String
  database_connected : Bool
deriving DecidableEq, Repr

/-- `POST /upload_and_save/`: dependency check on the collection, the three
validators, text extraction, parsing, then the insert; on success returns the
response and the updated state. The `if not insert_result.inserted_id` branch
cannot fire because a successful `insert_one` always carries an id. -/
def upload_and_save (st : AppState) (file : UploadFile) (userId : String) :
    Result (ParsedResumeOut × AppState) :=
  if st.collectionAvailable then
    match validate_file_size st.maxFileSize file with
    | .error e => .error e
    | .ok _ =>
      match validate_file_type file with
      | .error e => .error e
      | .ok _ =>
        match validate_user_id userId with
        | .error e => .error e
        | .ok user_obj_id =>
          match extract_text_from_pdf file with
          | .error e => .error e
          | .ok pdf_text =>
            match parse_resume_text st.modelState pdf_text with
            | .error e => .error e
            | .ok result =>
              if st.dbReachable then
                .ok (⟨natToHex24 st.store.nextId, result.parsed_text,
                       project_entities result.entities, userId⟩,
                     { st with store :=
                        ⟨st.store.docs ++ [(st.store.nextId,
                          ⟨result.parsed_text, project_entities result.entities,
                           user_obj_id, none, file.filename, file.size,
                           file.contentType⟩)],
                         st.store.nextId + 1⟩ })
              else .error (.http ⟨500, "Database error: " ++ st.dbErrorMsg⟩)
  else .error (.http ⟨503, "Database collection not available"⟩)

/-- `GET /resume/{resume_id}`: dependency check, `ObjectId` parse (400 on bad
format), `find_one` (raises to a 500 on transport failure, 404 when no
document matches), then the response shaped from the stored document. -/
def get_resume (st : AppState) (resume_id : String) : Result ParsedResumeOut :=
  if st.collectionAvailable then
    match parseObjectId resume_id with
    | none => .error (.http ⟨400, "Invalid resume ID format"⟩)
    | some oid =>
        if st.dbReachable then
          match st.store.docs.lookup oid with
          | none => .error (.http ⟨404, "Resume not found"⟩)
          | some doc =>
              .ok ⟨natToHex24 oid, doc.parsed_text, doc.entities, natToHex24 doc.userId⟩
        else .error (.http ⟨500, "Database error"⟩)
  else .error (.http ⟨503, "Database collection not available"⟩)

/-- `GET /health`: pings the database inside a `try` whose `except` swallows
every failure, then always returns a `HealthCheck` response: `healthy` with
`database_connected = true` exactly when the client global is set and the
ping succeeds, `degraded` with `false` otherwise. -/
def health_check (st : AppState) : Result HealthCheck :=
  let connected := st.clientPresent && st.dbReachable
  .ok ⟨if connected then "healthy" else "degraded", connected⟩

/-- A registered route: HTTP method and path pattern. -/
structure Route where
  method : String
  path : String
deriving DecidableEq, Repr

/-- The routes registered on the FastAPI `app`, in source order. -/
def app_routes : List Route :=
  [⟨"GET", "/"⟩,
   ⟨"GET", "/health"⟩,
   ⟨"POST", "/upload_and_save/"⟩,
   ⟨"GET", "/resume/\x7bresume_id\x7d"⟩,
   ⟨"GET", "/resumes/user/\x7buser_id\x7d"⟩]

/-- Concatenation of a list of strings, in order (the specification-side
description of what the page loop accumulates). -/
def joinAll : List String → String
  | [] => ""
  | s :: rest => s ++ joinAll rest

/-- The texts of the pages whose `extract_text()` call did not raise, in page
order (`None` results count as the empty text the code appends for them). -/
def successfulTexts : List PageExtract → List String
  | [] => []
  | .ok t :: ps => t :: successfulTexts ps
  | .noText :: ps => "" :: successfulTexts ps
  | .failed _ :: ps => successfulTexts ps

lemma str_append_empty (s : String) : s ++ "" = s :=
  String.ext (by simp [String.data_append])

lemma str_empty_append (s : String) : "" ++ s = s :=
  String.ext (by simp [String.data_append])

lemma str_append_assoc (a b c : String) : a ++ b ++ c = a ++ (b ++ c) :=
  String.ext (by simp [String.data_append, List.append_assoc])

lemma foldl_contribution (pages : List PageExtract) :
    ∀ acc : String,
      pages.foldl (fun a p => a ++ p.contribution) acc =
        acc ++ joinAll (successfulTexts pages) := by
  induction pages with
  | nil => intro acc; simp [joinAll, successfulTexts, str_append_empty]
  | cons p ps ih =>
      intro acc
      rw [List.foldl_cons, ih]
      cases p with
      | ok t =>
          show acc ++ t ++ joinAll (successfulTexts ps) =
            acc ++ (t ++ joinAll (successfulTexts ps))
          exact str_append_assoc acc t _
      | noText =>
          show acc ++ "" ++ joinAll (successfulTexts ps) =
            acc ++ ("" ++ joinAll (successfulTexts ps))
          exact str_append_assoc acc "" _
      | failed m =>
          show acc ++ "" ++ joinAll (successfulTexts ps) = acc ++ joinAll (successfulTexts ps)
          rw [str_append_empty]

lemma pyStrip_empty : pyStrip "" = "" := rfl

lemma hexVal_hexDigitChar : ∀ d : Nat, d < 16 → hexVal (hexDigitChar d) = d := by decide

lemma isHexDigitChar_hexDigitChar : ∀ d : Nat, d < 16 →
    isHexDigitChar (hexDigitChar d) = true := by decide

lemma natToHexDigits_length (k : Nat) : ∀ n : Nat, (natToHexDigits n k).length = k := by
  induction k with
  | zero => intro n; rfl
  | succ k ih => intro n; simp [natToHexDigits, ih]

lemma natToHexDigits_all_hex (k : Nat) : ∀ n : Nat,
    (natToHexDigits n k).all isHexDigitChar = true := by
  induction k with
  | zero => intro n; rfl
  | succ k ih =>
      intro n
      simp [natToHexDigits, List.all_append, ih]
      exact isHexDigitChar_hexDigitChar _ (Nat.mod_lt _ (by norm_num))

lemma mod_sixteen_pow_succ (m k : Nat) :
    m % 16 ^ (k + 1) = 16 * (m / 16 % 16 ^ k) + m % 16 := by
  have h : (16 : Nat) ^ (k + 1) = 16 * 16 ^ k := by ring
  rw [h, Nat.mod_mul]
  omega

lemma hexListFold (k : Nat) : ∀ n a : Nat,
    (natToHexDigits n k).foldl (fun x c => 16 * x + hexVal c) a = a * 16 ^ k + n % 16 ^ k := by
  induction k with
  | zero => intro n a; simp [natToHexDigits, Nat.mod_one]
  | succ k ih =>
      intro n a
      show (natToHexDigits (n / 16) k ++ [hexDigitChar (n % 16)]).foldl
          (fun x c => 16 * x + hexVal c) a = a * 16 ^ (k + 1) + n % 16 ^ (k + 1)
      rw [List.foldl_append, ih (n / 16) a]
      simp only [List.foldl_cons, List.foldl_nil]
      rw [hexVal_hexDigitChar _ (Nat.mod_lt _ (by norm_num)), mod_sixteen_pow_succ]
      ring

lemma parseObjectId_natToHex24 (n : Nat) (h : n < 16 ^ 24) :
    parseObjectId (natToHex24 n) = some n := by
  have hvalid : isValidObjectIdString (natToHex24 n) = true := by
    simp [isValidObjectIdString, natToHex24, natToHexDigits_length, natToHexDigits_all_hex]
  rw [parseObjectId, if_pos hvalid]
  show some ((natToHexDigits n 24).foldl (fun a c => 16 * a + hexVal c) 0) = some n
  rw [hexListFold 24 n 0, Nat.zero_mul, Nat.zero_add, Nat.mod_eq_of_lt h]

lemma lookup_append_fresh (l : List (Nat × StoredDoc)) (a : Nat) (b : StoredDoc)
    (h : l.lookup a = none) : (l ++ [(a, b)]).lookup a = some b := by
  induction l with
  | nil => simp [List.lookup]
  | cons p t ih =>
      obtain ⟨k, v⟩ := p
      cases hak : a == k with
      | true => exfalso; simp [List.lookup, hak] at h
      | false =>
          simp only [List.cons_append, List.lookup, hak] at h ⊢
          exact ih h

lemma validate_user_id_ok_inv (uid : String) (u : Nat)
    (h : validate_user_id uid = .ok u) : parseObjectId uid = some u := by
  unfold validate_user_id at h
  split at h
  · rename_i oid heq
    cases h
    exact heq
  · exact absurd h (by simp)

lemma parse_resume_text_ok_inv (ms : ModelState) (txt : String) (res : ParseResult)
    (h : parse_resume_text ms txt = .ok res) :
    ∃ m : NerModel, ms = .loaded m ∧ pyStrip txt ≠ "" ∧
      res.parsed_text = txt ∧ res.entities = m.ents txt := by
  unfold parse_resume_text at h
  split at h
  · exact absurd h (by simp)
  · rename_i hne
    cases ms with
    | missing p => exact absurd h (by simp)
    | loadFailed m => exact absurd h (by simp)
    | loaded m =>
        simp only [ResumeParser.parse_resume, Except.ok.injEq] at h
        exact ⟨m, rfl, hne, by rw [← h], by rw [← h]⟩

lemma upload_and_save_ok_inv (st : AppState) (file : UploadFile) (uid : String)
    (out : ParsedResumeOut) (st2 : AppState)
    (h : upload_and_save st file uid = .ok (out, st2)) :
    ∃ (u : Nat) (txt : String) (res : ParseResult),
      st.collectionAvailable = true ∧
      parseObjectId uid = some u ∧
      extract_text_from_pdf file = .ok txt ∧
      parse_resume_text st.modelState txt = .ok res ∧
      st.dbReachable = true ∧
      out = ⟨natToHex24 st.store.nextId, res.parsed_text,
             project_entities res.entities, uid⟩ ∧
      st2 = { st with store :=
        ⟨st.store.docs ++ [(st.store.nextId,
           ⟨res.parsed_text, project_entities res.entities, u, none,
            file.filename, file.size, file.contentType⟩)],
         st.store.nextId + 1⟩ } := by
  unfold upload_and_save at h
  split at h
  case isFalse => exact absurd h (by simp)
  case isTrue hcol =>
    split at h
    case h_1 => exact absurd h (by simp)
    case h_2 =>
      split at h
      case h_1 => exact absurd h (by simp)
      case h_2 =>
        split at h
        case h_1 => exact absurd h (by simp)
        case h_2 u hu =>
          split at h
          case h_1 => exact absurd h (by simp)
          case h_2 txt hx =>
            split at h
            case h_1 => exact absurd h (by simp)
            case h_2 res hp =>
              split at h
              case isFalse => exact absurd h (by simp)
              case isTrue hdb =>
                simp only [Except.ok.injEq, Prod.mk.injEq] at h
                exact ⟨u, txt, res, hcol, validate_user_id_ok_inv uid u hu, hx, hp, hdb,
                  h.1.symm, h.2.symm⟩

/-- Entity list of a successful upload response (for stating concrete runs). -/
def respEntities : Result (ParsedResumeOut × AppState) → Option (List String)
  | .ok (o, _) => some o.entities
  | .error _ => none

/-- Client-observed status of a failed request (for stating concrete runs). -/
def failStatus : Result (ParsedResumeOut × AppState) → Option Nat
  | .ok _ => none
  | .error f => some (clientStatus f)

/-- Example recognizer: one entity with span text `"John Smith"` and label
`"NAME"` on every input. -/
def mW : NerModel := ⟨fun _ => [("John Smith", "NAME")]⟩

/-- Example upload: a small PDF whose first page extracts to `"John Smith"` and
whose second page raises during extraction. -/
def fileW : UploadFile :=
  ⟨"resume.pdf", some 1024, "application/pdf", .valid [.ok "John Smith", .failed "boom"]⟩

/-- Example well-formed user id string. -/
def uidW : String := "aaaaaaaaaaaaaaaaaaaaaaaa"

/-- Example healthy process state with an empty collection. -/
def stW : AppState := ⟨.loaded mW, ⟨[], 0⟩, true, true, true, "connection reset", MAX_FILE_SIZE⟩

/-- Example state whose model directory is absent (`FileNotFoundError` on
`ResumeParser()`). -/
def stC3 : AppState :=
  ⟨.missing "/app/model/output80/model-last", ⟨[], 0⟩, true, true, true,
   "connection reset", MAX_FILE_SIZE⟩

/-- Example state with an unreachable database. -/
def stDegraded : AppState :=
  ⟨.loaded mW, ⟨[], 0⟩, true, true, false, "server selection timeout", MAX_FILE_SIZE⟩

/-- Example oversized upload: a valid PDF whose declared size is one byte over
the default ceiling. -/
def fileBig : UploadFile :=
  ⟨"resume.pdf", some (MAX_FILE_SIZE + 1), "application/pdf",
   .valid [.ok "John Smith", .failed "boom"]⟩

/-- Example upload whose PDF parses structurally but has zero pages. -/
def fileNoPages : UploadFile :=
  ⟨"empty.pdf", some 100, "application/pdf", .valid []⟩

/-- Expected response of `upload_and_save stW fileW uidW`. -/
def outW : ParsedResumeOut := ⟨natToHex24 0, "John Smith", ["John Smith"], uidW⟩

/-- Document persisted by `upload_and_save stW fileW uidW`. -/
def docW : StoredDoc :=
  ⟨"John Smith", ["John Smith"], hexListToNat uidW.data, none, "resume.pdf",
   some 1024, "application/pdf"⟩

/-- State after `upload_and_save stW fileW uidW`. -/
def st2W : AppState := { stW with store := ⟨[(0, docW)], 1⟩ }

/-- C1: the claim says each element of the response's entities list equals the
label component of the recognizer's (span text, label) pair. On a concrete run
the recognizer yields the pair `("John Smith", "NAME")`, yet the response's
entities list is `["John Smith"]` (the span text), not `["NAME"]` (the label):
the projection keeps `ent[0]`, the span text, and drops the label. -/
theorem C1_counterexample :
    respEntities (upload_and_save stW fileW uidW) = some ["John Smith"] ∧
    mW.ents "John Smith" = [("John Smith", "NAME")] ∧
    ((some ["John Smith"] : Option (List String)) == some ["NAME"]) = false :=
  ⟨rfl, rfl, rfl⟩

/-- C1 (amended): for every successful parse, the entities list in the API
response and in the persisted record consists of the entities' span-text
strings only, with the label dropped: each element equals the first (span
text) component of the corresponding (span text, label) pair produced by the
Recognizer, in the same order. -/
theorem C1_entities_project_to_span_texts (st : AppState) (file : UploadFile)
    (uid : String) (out : ParsedResumeOut) (st2 : AppState) (m : NerModel) (txt : String)
    (hm : st.modelState = .loaded m)
    (hx : extract_text_from_pdf file = .ok txt)
    (h : upload_and_save st file uid = .ok (out, st2)) :
    out.entities = (m.ents txt).map Prod.fst ∧
    ∃ doc : StoredDoc, st2.store.docs = st.store.docs ++ [(st.store.nextId, doc)] ∧
      doc.entities = (m.ents txt).map Prod.fst := by
  obtain ⟨u, txt2, res, hcol, hu, hx2, hp, hdb, hout, hst2⟩ :=
    upload_and_save_ok_inv st file uid out st2 h
  rw [hx] at hx2
  injection hx2 with htxt
  subst htxt
  obtain ⟨m2, hm2, hne, hrt, hre⟩ := parse_resume_text_ok_inv st.modelState txt res hp
  rw [hm] at hm2
  injection hm2 with hmm
  subst hmm
  refine ⟨?_, ⟨res.parsed_text, project_entities res.entities, u, none,
    file.filename, file.size, file.contentType⟩, ?_, ?_⟩
  · rw [hout]
    show project_entities res.entities = (m.ents txt).map Prod.fst
    rw [hre]
    rfl
  · rw [hst2]
  · show project_entities res.entities = (m.ents txt).map Prod.fst
    rw [hre]
    rfl

/-- C1 witness: the amended theorem applied to the concrete run of
`upload_and_save stW fileW uidW`. -/
theorem C1_witness :
    stW.modelState = .loaded mW ∧
    extract_text_from_pdf fileW = .ok "John Smith" ∧
    upload_and_save stW fileW uidW = .ok (outW, st2W) ∧
    (outW.entities = (mW.ents "John Smith").map Prod.fst ∧
      ∃ doc : StoredDoc, st2W.store.docs = stW.store.docs ++ [(stW.store.nextId, doc)] ∧
        doc.entities = (mW.ents "John Smith").map Prod.fst) :=
  ⟨rfl, rfl, rfl,
   C1_entities_project_to_span_texts stW fileW uidW outW st2W mW "John Smith" rfl rfl rfl⟩

/-- C2: the claim says the service exposes `POST /parse_resume`. No registered
route has path `/parse_resume` (for any method): the only routes are the five
listed in `app_routes`, so no parse-without-persistence operation exists. -/
theorem C2_counterexample :
    ((app_routes.map Route.path).contains "/parse_resume") = false := rfl

/-- C2 (amended): the service exposes no standalone parse-without-persistence
endpoint; no route has path `/parse_resume`. The registered routes are exactly
`GET /`, `GET /health`, `POST /upload_and_save/`, `GET /resume/{resume_id}`
and `GET /resumes/user/{user_id}`, so parsing runs only inside the persisting
`upload_and_save` operation. -/
theorem C2_no_parse_resume_route :
    app_routes.map Route.path =
      ["/", "/health", "/upload_and_save/", "/resume/\x7bresume_id\x7d",
       "/resumes/user/\x7buser_id\x7d"] ∧
    ((app_routes.map Route.path).contains "/parse_resume") = false ∧
    ((app_routes.map Route.path).contains "/upload_and_save/") = true :=
  ⟨rfl, rfl, rfl⟩

/-- C3: the claim says a missing/unloadable model artifact surfaces as HTTP
503. On a concrete run with the model directory absent, the request fails
with client-observed status 500 (the `FileNotFoundError` escapes
`parse_resume_text` uncaught and hits the generic handler), not 503. -/
theorem C3_counterexample :
    failStatus (upload_and_save stC3 fileW uidW) = some 500 ∧
    ((some 500 : Option Nat) == some 503) = false :=
  ⟨rfl, rfl⟩

/-- C3 (amended): for every request in which the NER model artifact cannot be
located or loaded (and which reaches the parsing step), the operation fails
with an unhandled exception surfaced to the client as a generic HTTP 500
"Internal server error", not as 503; 503 is reserved for an uninitialised
database collection. -/
theorem C3_model_unavailable_is_500 (st : AppState) (file : UploadFile)
    (uid : String) (u : Nat) (txt : String)
    (hcol : st.collectionAvailable = true)
    (hsize : validate_file_size st.maxFileSize file = .ok ())
    (htype : file.contentType = "application/pdf")
    (huid : parseObjectId uid = some u)
    (hx : extract_text_from_pdf file = .ok txt)
    (hne : pyStrip txt ≠ "")
    (hm : (∃ p, st.modelState = .missing p) ∨ (∃ msg, st.modelState = .loadFailed msg)) :
    ∃ f : Failure, upload_and_save st file uid = .error f ∧
      clientStatus f = 500 ∧ clientDetail f = "Internal server error" := by
  have htype2 : validate_file_type file = .ok () := by simp [validate_file_type, htype]
  have huid2 : validate_user_id uid = .ok u := by simp [validate_user_id, huid]
  cases hm with
  | inl h1 =>
      obtain ⟨p, hp⟩ := h1
      have hpr : parse_resume_text st.modelState txt =
          .error (.unhandled ("Model not found at " ++ p ++
            ". Check the path and try again.")) := by
        rw [parse_resume_text.eq_def, if_neg hne, hp]
      exact ⟨.unhandled ("Model not found at " ++ p ++ ". Check the path and try again."),
        by simp [upload_and_save, hcol, hsize, htype2, huid2, hx, hpr], rfl, rfl⟩
  | inr h1 =>
      obtain ⟨msg, hp⟩ := h1
      have hpr : parse_resume_text st.modelState txt = .error (.unhandled msg) := by
        rw [parse_resume_text.eq_def, if_neg hne, hp]
      exact ⟨.unhandled msg,
        by simp [upload_and_save, hcol, hsize, htype2, huid2, hx, hpr], rfl, rfl⟩

/-- C3 witness: the amended theorem applied to the concrete state with the
model directory absent. -/
theorem C3_witness :
    stC3.collectionAvailable = true ∧
    (∃ f : Failure, upload_and_save stC3 fileW uidW = .error f ∧
      clientStatus f = 500 ∧ clientDetail f = "Internal server error") :=
  ⟨rfl, C3_model_unavailable_is_500 stC3 fileW uidW (hexListToNat uidW.data) "John Smith"
    rfl rfl rfl rfl rfl (by decide) (Or.inl ⟨"/app/model/output80/model-last", rfl⟩)⟩

/-- C4: for every successful `upload_and_save` call returning id, a subsequent
`get_resume` on that id with the store unchanged in between (the persisted id
fresh in the store, ids being 12-byte ObjectIds) returns a record whose
parsedText and entities are exactly those returned by the save call. -/
theorem C4_roundtrip (st : AppState) (file : UploadFile) (uid : String)
    (out : ParsedResumeOut) (st2 : AppState)
    (h : upload_and_save st file uid = .ok (out, st2))
    (hfresh : st.store.docs.lookup st.store.nextId = none)
    (hlt : st.store.nextId < 16 ^ 24) :
    ∃ r : ParsedResumeOut, get_resume st2 out.id = .ok r ∧
      r.parsed_text = out.parsed_text ∧ r.entities = out.entities := by
  obtain ⟨u, txt, res, hcol, hu, hx, hp, hdb, hout, hst2⟩ :=
    upload_and_save_ok_inv st file uid out st2 h
  subst hout
  subst hst2
  have hparse : parseObjectId (natToHex24 st.store.nextId) = some st.store.nextId :=
    parseObjectId_natToHex24 _ hlt
  have hlook : (st.store.docs ++ [(st.store.nextId,
      (⟨res.parsed_text, project_entities res.entities, u, none,
        file.filename, file.size, file.contentType⟩ : StoredDoc))]).lookup
      st.store.nextId = some ⟨res.parsed_text, project_entities res.entities, u, none,
        file.filename, file.size, file.contentType⟩ :=
    lookup_append_fresh _ _ _ hfresh
  exact ⟨⟨natToHex24 st.store.nextId, res.parsed_text, project_entities res.entities,
    natToHex24 u⟩, by simp [get_resume, hcol, hdb, hparse, hlook], rfl, rfl⟩

/-- C4 witness: the round-trip theorem applied to the concrete run of
`upload_and_save stW fileW uidW` followed by `get_resume` on the returned id. -/
theorem C4_witness :
    upload_and_save stW fileW uidW = .ok (outW, st2W) ∧
    stW.store.docs.lookup stW.store.nextId = none ∧
    (∃ r : ParsedResumeOut, get_resume st2W outW.id = .ok r ∧
      r.parsed_text = outW.parsed_text ∧ r.entities = outW.entities) :=
  ⟨rfl, rfl, C4_roundtrip stW fileW uidW outW st2W rfl rfl (by decide)⟩

/-- C5: for every non-empty page list, extraction returns the in-order
concatenation of the successfully extracted page texts (pages that raise are
skipped without aborting; a page whose `extract_text()` returns `None`
contributes the empty string), trimmed of leading and trailing whitespace;
when that trimmed concatenation is non-empty the result is non-empty. -/
theorem C5_extraction_concatenates_pages (fn : String) (sz : Option Nat) (ct : String)
    (pages : List PageExtract) (hne : pages ≠ []) :
    extract_text_from_pdf ⟨fn, sz, ct, .valid pages⟩ =
      .ok (pyStrip (joinAll (successfulTexts pages))) ∧
    (pyStrip (joinAll (successfulTexts pages)) ≠ "" →
      ∃ t : String, extract_text_from_pdf ⟨fn, sz, ct, .valid pages⟩ = .ok t ∧ t ≠ "") := by
  have hlen : pages.length ≠ 0 := fun hl => hne (List.length_eq_zero.mp hl)
  have h1 : extract_text_from_pdf ⟨fn, sz, ct, .valid pages⟩ =
      .ok (pyStrip (joinAll (successfulTexts pages))) := by
    simp only [extract_text_from_pdf]
    rw [if_neg hlen, foldl_contribution pages "", str_empty_append]
  exact ⟨h1, fun hns => ⟨_, h1, hns⟩⟩

/-- C5 witness: the extraction theorem applied to a concrete two-page PDF whose
second page raises during extraction. -/
theorem C5_witness :
    (([PageExtract.ok "John Smith", PageExtract.failed "boom"] ==
      ([] : List PageExtract)) = false) ∧
    (extract_text_from_pdf ⟨"resume.pdf", some 1024, "application/pdf",
        .valid [PageExtract.ok "John Smith", PageExtract.failed "boom"]⟩ =
      .ok (pyStrip (joinAll
        (successfulTexts [PageExtract.ok "John Smith", PageExtract.failed "boom"]))) ∧
    (pyStrip (joinAll
        (successfulTexts [PageExtract.ok "John Smith", PageExtract.failed "boom"])) ≠ "" →
      ∃ t : String, extract_text_from_pdf ⟨"resume.pdf", some 1024, "application/pdf",
          .valid [PageExtract.ok "John Smith", PageExtract.failed "boom"]⟩ =
        .ok t ∧ t ≠ "")) :=
  ⟨rfl, C5_extraction_concatenates_pages "resume.pdf" (some 1024) "application/pdf"
    [PageExtract.ok "John Smith", PageExtract.failed "boom"] (by decide)⟩

/-- C6: every record `upload_and_save` persists has a non-empty parsedText
(the emptiness check in `parse_resume_text` runs before the insert) and a
userId that is the value of a format-validated ObjectId string. -/
theorem C6_persisted_invariant (st : AppState) (file : UploadFile) (uid : String)
    (out : ParsedResumeOut) (st2 : AppState)
    (h : upload_and_save st file uid = .ok (out, st2)) :
    ∃ (doc : StoredDoc) (u : Nat),
      st2.store.docs = st.store.docs ++ [(st.store.nextId, doc)] ∧
      doc.parsed_text ≠ "" ∧
      parseObjectId uid = some u ∧ doc.userId = u := by
  obtain ⟨u, txt, res, hcol, hu, hx, hp, hdb, hout, hst2⟩ :=
    upload_and_save_ok_inv st file uid out st2 h
  obtain ⟨m, hm, hne, hrt, hre⟩ := parse_resume_text_ok_inv st.modelState txt res hp
  refine ⟨⟨res.parsed_text, project_entities res.entities, u, none,
    file.filename, file.size, file.contentType⟩, u, by rw [hst2], ?_, hu, rfl⟩
  show res.parsed_text ≠ ""
  rw [hrt]
  intro hempty
  exact hne (by rw [hempty]; exact pyStrip_empty)

/-- C6 witness: the invariant theorem applied to the concrete run of
`upload_and_save stW fileW uidW`. -/
theorem C6_witness :
    upload_and_save stW fileW uidW = .ok (outW, st2W) ∧
    (∃ (doc : StoredDoc) (u : Nat),
      st2W.store.docs = stW.store.docs ++ [(stW.store.nextId, doc)] ∧
      doc.parsed_text ≠ "" ∧
      parseObjectId uidW = some u ∧ doc.userId = u) :=
  ⟨rfl, C6_persisted_invariant stW fileW uidW outW st2W rfl⟩

/-- C7: every upload whose declared file size exceeds the configured maximum
fails with HTTP 413 (with the size-detail message), regardless of the file's
content, the model state and the store — so before any extraction or
recognition work. -/
theorem C7_oversize_is_413 (st : AppState) (file : UploadFile) (uid : String) (s : Nat)
    (hcol : st.collectionAvailable = true)
    (hs : file.size = some s)
    (hgt : st.maxFileSize < s) :
    upload_and_save st file uid = .error (.http ⟨413,
      "File size (" ++ toString s ++ " bytes) exceeds maximum allowed size (" ++
        toString st.maxFileSize ++ " bytes)"⟩) := by
  have h0 : 0 < s := Nat.lt_of_le_of_lt (Nat.zero_le _) hgt
  have hval : validate_file_size st.maxFileSize file = .error (.http ⟨413,
      "File size (" ++ toString s ++ " bytes) exceeds maximum allowed size (" ++
        toString st.maxFileSize ++ " bytes)"⟩) := by
    simp only [validate_file_size, hs]
    rw [if_pos ⟨h0, hgt⟩]
  simp [upload_and_save, hcol, hval]

/-- C7 witness: the 413 theorem applied to a valid PDF whose declared size is
one byte over the default 10 MiB ceiling. -/
theorem C7_witness :
    stW.collectionAvailable = true ∧ fileBig.size = some (MAX_FILE_SIZE + 1) ∧
    stW.maxFileSize < MAX_FILE_SIZE + 1 ∧
    upload_and_save stW fileBig uidW = .error (.http ⟨413,
      "File size (" ++ toString (MAX_FILE_SIZE + 1) ++
        " bytes) exceeds maximum allowed size (" ++
        toString stW.maxFileSize ++ " bytes)"⟩) :=
  ⟨rfl, rfl, by decide,
   C7_oversize_is_413 stW fileBig uidW (MAX_FILE_SIZE + 1) rfl rfl (by decide)⟩

/-- C8: with the collection initialised and the store reachable, `get_resume`
fails with 400 on every syntactically invalid record id, and with 404 on every
well-formed id that matches no stored record (reported as not-found, not as a
storage error). -/
theorem C8_get_resume_errors (st : AppState) (rid : String)
    (hcol : st.collectionAvailable = true)
    (hdb : st.dbReachable = true) :
    (parseObjectId rid = none →
      get_resume st rid = .error (.http ⟨400, "Invalid resume ID format"⟩)) ∧
    (∀ oid : Nat, parseObjectId rid = some oid → st.store.docs.lookup oid = none →
      get_resume st rid = .error (.http ⟨404, "Resume not found"⟩)) := by
  constructor
  · intro hp
    simp [get_resume, hcol, hp]
  · intro oid hp hl
    simp [get_resume, hcol, hdb, hp, hl]

/-- Example well-formed record id absent from the (empty) example store. -/
def uidB : String := "bbbbbbbbbbbbbbbbbbbbbbbb"

/-- C8 witness: the theorem applied to a malformed id (400) and to a
well-formed id absent from the store (404). -/
theorem C8_witness :
    get_resume stW "not-a-valid-object-id" =
      .error (.http ⟨400, "Invalid resume ID format"⟩) ∧
    get_resume stW uidB = .error (.http ⟨404, "Resume not found"⟩) :=
  ⟨(C8_get_resume_errors stW "not-a-valid-object-id" rfl rfl).1 rfl,
   (C8_get_resume_errors stW uidB rfl rfl).2 (hexListToNat uidB.data) rfl rfl⟩

/-- C9: the health operation never fails: for every process state it returns a
response; it reports `database_connected = false` with overall status
`degraded` when the store is unreachable (or the client global unset), and
status `healthy` with `database_connected = true` when the ping succeeds. -/
theorem C9_health_never_fails (st : AppState) :
    (∃ hc : HealthCheck, health_check st = .ok hc) ∧
    (st.dbReachable = false → health_check st = .ok ⟨"degraded", false⟩) ∧
    (st.clientPresent = false → health_check st = .ok ⟨"degraded", false⟩) ∧
    (st.clientPresent = true → st.dbReachable = true →
      health_check st = .ok ⟨"healthy", true⟩) := by
  refine ⟨⟨_, rfl⟩, ?_, ?_, ?_⟩
  · intro h; simp [health_check, h]
  · intro h; simp [health_check, h]
  · intro h1 h2; simp [health_check, h1, h2]

/-- C9 witness: the health theorem applied to an unreachable-database state
and to a healthy state. -/
theorem C9_witness :
    health_check stDegraded = .ok ⟨"degraded", false⟩ ∧
    health_check stW = .ok ⟨"healthy", true⟩ :=
  ⟨(C9_health_never_fails stDegraded).2.1 rfl,
   (C9_health_never_fails stW).2.2.2 rfl rfl⟩

/-- C10: every upload whose PDF parses structurally but has zero pages fails
with HTTP 400 and the message "PDF file has no pages", for every model state
and store — so before the empty-text check and before any entity recognition
runs. -/
theorem C10_no_pages_is_400 (st : AppState) (file : UploadFile) (uid : String) (u : Nat)
    (hcol : st.collectionAvailable = true)
    (hsize : validate_file_size st.maxFileSize file = .ok ())
    (htype : file.contentType = "application/pdf")
    (huid : parseObjectId uid = some u)
    (hpages : file.content = .valid []) :
    upload_and_save st file uid = .error (.http ⟨400, "PDF file has no pages"⟩) := by
  have htype2 : validate_file_type file = .ok () := by simp [validate_file_type, htype]
  have huid2 : validate_user_id uid = .ok u := by simp [validate_user_id, huid]
  have hx : extract_text_from_pdf file = .error (.http ⟨400, "PDF file has no pages"⟩) := by
    simp [extract_text_from_pdf, hpages]
  simp [upload_and_save, hcol, hsize, htype2, huid2, hx]

/-- C10 witness: the zero-pages theorem applied to a concrete upload with an
empty page list. -/
theorem C10_witness :
    stW.collectionAvailable = true ∧ fileNoPages.content = .valid [] ∧
    upload_and_save stW fileNoPages uidW =
      .error (.http ⟨400, "PDF file has no pages"⟩) :=
  ⟨rfl, rfl,
   C10_no_pages_is_400 stW fileNoPages uidW (hexListToNat uidW.data) rfl rfl rfl rfl rfl⟩
